import Mathlib

/-!
Verification of the uC/OS-III IAR thread-local-storage layer
(`src/TLS/IAR/os_tls.c`) against its natural-language specification.

The C file is shallowly embedded: global kernel state is passed
explicitly, machine words become `Nat`, null pointers become `Option`,
and the external collaborators (the kernel mutex API, the IAR per-thread
heap allocator, critical sections) are modelled as oracles/parameters.
The file is single-threaded C under critical sections, so each function
is embedded as a pure state transformer.
-/

namespace OsTls

/-- The error codes of `OS_ERR` used by os_tls.c (the full enum lives in
os.h, outside this repository; only distinctness of these codes matters
here).  `MUTEX_FAIL` stands for any non-`OS_ERR_NONE` code reported by
`OSMutexCreate`. -/
inductive OS_ERR where
  | NONE
  | TLS_ID_INVALID
  | TLS_NO_MORE_AVAIL
  | TLS_NOT_EN
  | OS_NOT_RUNNING
  | MUTEX_FAIL
deriving DecidableEq, Repr

/-- A task control block, restricted to the two fields os_tls.c reads:
`OptNoTls` is true exactly when the `OS_OPT_TASK_NO_TLS` bit is set in
`p_tcb->Opt` (so the C test `(p_tcb->Opt & OS_OPT_TASK_NO_TLS) == OS_OPT_NONE`
is `OptNoTls = false`), and `TLS_Tbl` is the per-task TLS value table
(`OS_TLS` values are machine words, modelled as `Nat`; the C array of
size `OS_CFG_TLS_TBL_SIZE` is modelled as a total function, read only at
indices the code has range-checked). -/
structure OS_TCB where
  OptNoTls : Bool
  TLS_Tbl : Nat → Nat

/-- `OS_TLS_GetID` (os_tls.c lines 106-132).  Inputs: the build-time
capacity `OS_CFG_TLS_TBL_SIZE` and the current value of the global
counter `OS_TLS_NextAvailID`.  Output: the returned id, the error stored
in `*p_err`, and the new counter value. -/
def OS_TLS_GetID (cap next : Nat) : Nat × OS_ERR × Nat :=
  if next ≥ cap then
    (cap, OS_ERR.TLS_NO_MORE_AVAIL, next)
  else
    (next, OS_ERR.NONE, next + 1)

/-- `n` successive calls to `OS_TLS_GetID` starting from counter value
`next`: the list of (returned id, error) pairs in call order, and the
final counter. -/
def runGetID (cap : Nat) : Nat → Nat → List (Nat × OS_ERR) × Nat
  | 0, next => ([], next)
  | n + 1, next =>
    let r := OS_TLS_GetID cap next
    let rest := runGetID cap n r.2.2
    ((r.1, r.2.1) :: rest.1, rest.2)

/-- The C pointer dance at the head of `OS_TLS_GetValue` / `OS_TLS_SetValue`:
`if (p_tcb == 0) p_tcb = OSTCBCurPtr;`.  `cur` is `OSTCBCurPtr`
(none = scheduler not started, no current task). -/
def resolveRef (cur p_tcb : Option OS_TCB) : Option OS_TCB :=
  match p_tcb with
  | none => cur
  | some t => some t

/-- `OS_TLS_GetValue` (os_tls.c lines 164-207), with `OS_CFG_ARG_CHK_EN`
enabled.  Inputs: the global counter `OS_TLS_NextAvailID`, the current
task pointer `OSTCBCurPtr`, the `p_tcb` argument and the id.  Output:
the returned value and the error stored in `*p_err`. -/
def OS_TLS_GetValue (nextAvail : Nat) (cur p_tcb : Option OS_TCB)
    (id : Nat) : Nat × OS_ERR :=
  if id ≥ nextAvail then
    (0, OS_ERR.TLS_ID_INVALID)
  else
    match resolveRef cur p_tcb with
    | none => (0, OS_ERR.OS_NOT_RUNNING)
    | some tcb =>
      if tcb.OptNoTls = false then
        (tcb.TLS_Tbl id, OS_ERR.NONE)
      else
        (0, OS_ERR.TLS_NOT_EN)

/-- The store `p_tcb->TLS_Tbl[id] = value`. -/
def setTbl (tcb : OS_TCB) (id value : Nat) : OS_TCB :=
  { tcb with TLS_Tbl := fun j => if j = id then value else tcb.TLS_Tbl j }

/-- `OS_TLS_SetValue` (os_tls.c lines 282-322), with `OS_CFG_ARG_CHK_EN`
enabled.  The first component of the result is the updated TCB of the
resolved task when the store `p_tcb->TLS_Tbl[id] = value` executed, and
`none` when no TLS table was written (every error path); the second is
the error stored in `*p_err`. -/
def OS_TLS_SetValue (nextAvail : Nat) (cur p_tcb : Option OS_TCB)
    (id value : Nat) : Option OS_TCB × OS_ERR :=
  if id ≥ nextAvail then
    (none, OS_ERR.TLS_ID_INVALID)
  else
    match resolveRef cur p_tcb with
    | none => (none, OS_ERR.OS_NOT_RUNNING)
    | some tcb =>
      if tcb.OptNoTls = false then
        (some (setTbl tcb id value), OS_ERR.NONE)
      else
        (none, OS_ERR.TLS_NOT_EN)

/-- `OS_TLS_SetDestruct` (os_tls.c lines 243-248).  The body is
`*p_err = OS_ERR_NONE;` and nothing else: the id and the destructor
pointer are ignored. -/
def OS_TLS_SetDestruct (id : Nat) (p_destruct : Option (Nat → Nat → Nat)) : OS_ERR :=
  OS_ERR.NONE

/-- `OS_TLS_TaskCreate` (os_tls.c lines 397-408).  `libID` is the global
`OS_TLS_LibID`; `segPtr` models the pointer returned by the external
allocator `__iar_dlib_perthread_allocate()`.  When TLS is enabled for
the task, the segment pointer is stored at slot `libID`. -/
def OS_TLS_TaskCreate (libID segPtr : Nat) (p_tcb : OS_TCB) : OS_TCB :=
  if p_tcb.OptNoTls = false then
    { p_tcb with TLS_Tbl := fun j => if j = libID then segPtr else p_tcb.TLS_Tbl j }
  else
    p_tcb

/-- A TCB as handed to `OS_TLS_TaskCreate` by `OSTaskCreate`: TLS
enabled and, per note 2 at os_tls.c line 392, every `TLS_Tbl` entry
cleared to zero. -/
def clearedTcb : OS_TCB :=
  { OptNoTls := false, TLS_Tbl := fun _ => 0 }

/-- A freshly created TLS-enabled task: the cleared TCB after the
`OS_TLS_TaskCreate` hook ran with segment pointer `segPtr`. -/
def freshTcb (libID segPtr : Nat) : OS_TCB :=
  OS_TLS_TaskCreate libID segPtr clearedTcb

/-- The lock pool state.  Pool entries are the indices `0 .. cap-1` into
the static array `OS_TLS_LockPoolTbl`.  `freeList` is the LIFO singly
linked free list: its head is `OS_TLS_LockPoolListPtr` and consing is
exactly the C push-front via the `NextPtr` field (`p->NextPtr = head;
head = p`), popping the head is `head = head->NextPtr`.  `checkedOut` is
ghost bookkeeping (not a C variable): the entries currently handed out
to clients, most recently handed out first. -/
structure LockPool where
  freeList : List Nat
  checkedOut : List Nat
deriving DecidableEq, Repr

/-- The lock-pool part of `OS_TLS_Init` (os_tls.c lines 363-375): the
loop links entry `ix` to entry `ix+1` for `ix < cap-1`, the last entry
to null, and sets the head to entry 0, so the free list read from the
head is `0, 1, ..., cap-1`; no entry is checked out. -/
def initLockPool (cap : Nat) : LockPool :=
  { freeList := List.range cap, checkedOut := [] }

/-- `OS_TLS_LockCreate` (os_tls.c lines 485-523).  `mutexOk` is the
oracle for the external `OSMutexCreate` call (`true` iff it reports
`OS_ERR_NONE`).  Result: the value stored in `*p_lock` (none = the C
null pointer) and the new pool state.  An empty free list returns null
with the pool untouched; a mutex-creation failure pushes the popped
entry back on the front of the free list and returns null. -/
def OS_TLS_LockCreate (mutexOk : Bool) (p : LockPool) : Option Nat × LockPool :=
  match p.freeList with
  | [] => (none, p)
  | h :: t =>
    if mutexOk then
      (some h, { freeList := t, checkedOut := h :: p.checkedOut })
    else
      (none, { freeList := h :: t, checkedOut := p.checkedOut })

/-- `OS_TLS_LockDel` (os_tls.c lines 541-564).  `mutexDelOk` is the
oracle for the external `OSMutexDel` call; its result is discarded by
the C code (`(void)OSMutexDel(...)`), so the body never consults it.
A null handle is a no-op; otherwise the entry is pushed on the front of
the free list unconditionally. -/
def OS_TLS_LockDel (mutexDelOk : Bool) (p_lock : Option Nat) (p : LockPool) : LockPool :=
  match p_lock with
  | none => p
  | some h =>
    { freeList := h :: p.freeList, checkedOut := p.checkedOut.erase h }

/-- What a lock acquire/release call did to the kernel mutex layer. -/
inductive MutexAction where
  | untouched
  | pend (h : Nat)
  | post (h : Nat)
deriving DecidableEq, Repr

/-- `OS_TLS_LockAcquire` (os_tls.c lines 581-598).  `running` is true
iff `OSRunning == OS_STATE_OS_RUNNING`.  Returns which kernel mutex call
was made: null handle or kernel not running return immediately without
touching anything; otherwise `OSMutexPend` blocks on entry `h`. -/
def OS_TLS_LockAcquire (running : Bool) (p_lock : Option Nat) : MutexAction :=
  match p_lock, running with
  | none, _ => MutexAction.untouched
  | some _, false => MutexAction.untouched
  | some h, true => MutexAction.pend h

/-- `OS_TLS_LockRelease` (os_tls.c lines 615-630), same guard as
`OS_TLS_LockAcquire`; otherwise `OSMutexPost` signals entry `h`. -/
def OS_TLS_LockRelease (running : Bool) (p_lock : Option Nat) : MutexAction :=
  match p_lock, running with
  | none, _ => MutexAction.untouched
  | some _, false => MutexAction.untouched
  | some h, true => MutexAction.post h

/-- One client-visible lock-pool operation: a create (with the
`OSMutexCreate` oracle outcome) or a delete of a handle (with the
ignored `OSMutexDel` oracle outcome). -/
inductive PoolOp where
  | create (mutexOk : Bool)
  | del (h : Option Nat) (mutexDelOk : Bool)
deriving DecidableEq, Repr

/-- Effect of one operation on the pool state. -/
def poolStep (p : LockPool) : PoolOp → LockPool
  | PoolOp.create ok => (OS_TLS_LockCreate ok p).2
  | PoolOp.del h delOk => OS_TLS_LockDel delOk h p

/-- Effect of a sequence of operations, first operation first. -/
def poolRun (p : LockPool) : List PoolOp → LockPool
  | [] => p
  | op :: ops => poolRun (poolStep p op) ops

/-- A sequence of operations is valid when every delete is of a handle
the client actually holds: null, or an entry currently checked out. -/
def validOps (p : LockPool) : List PoolOp → Bool
  | [] => true
  | op :: ops =>
    (match op with
     | PoolOp.create _ => true
     | PoolOp.del none _ => true
     | PoolOp.del (some h) _ => p.checkedOut.contains h) && validOps (poolStep p op) ops

/-- Conservation invariant of claim C1: the free list together with the
checked-out entries is a permutation of all `cap` pool entries — every
entry is in exactly one of the two places. -/
def poolConserved (cap : Nat) (p : LockPool) : Prop :=
  (p.freeList ++ p.checkedOut).Perm (List.range cap)

instance (cap : Nat) (p : LockPool) : Decidable (poolConserved cap p) := by
  unfold poolConserved
  infer_instance

/-- `OS_TLS_Init` (os_tls.c lines 352-376), TLS-id part: the counter
`OS_TLS_NextAvailID` is reset to 0, then `OS_TLS_LibID` is allocated
through `OS_TLS_GetID`.  Result: `(OS_TLS_LibID, *p_err, OS_TLS_NextAvailID)`
after the call. -/
def OS_TLS_Init (cap : Nat) : Nat × OS_ERR × Nat :=
  OS_TLS_GetID cap 0

/-- `__iar_dlib_perthread_access` (os_tls.c lines 800-819).  `running`
is true iff `OSRunning == OS_STATE_OS_RUNNING`; `segBegin` is the
address `__segment_begin("__DLIB_PERTHREAD")` of the static main-thread
segment; `cur` is the TCB pointed to by `OSTCBCurPtr`; `libID` is the
global `OS_TLS_LibID`; `symbOffset` is the value of
`__IAR_DLIB_PERTHREAD_SYMBOL_OFFSET(symbp)`.  Addresses are modelled as
`Nat`. -/
def iar_dlib_perthread_access (running : Bool) (segBegin : Nat) (cur : OS_TCB)
    (libID symbOffset : Nat) : Nat :=
  let p_tls : Nat :=
    if running = false then segBegin
    else cur.TLS_Tbl libID
  let tls_start := p_tls
  let tls_offset := symbOffset
  tls_start + tls_offset

/-- Membership from the boolean `List.contains` test on `Nat`. -/
theorem mem_of_containsNat {l : List Nat} {h : Nat} (hc : l.contains h = true) :
    h ∈ l :=
  List.elem_iff.mp hc

/-- One valid step preserves the conservation invariant. -/
theorem poolStep_conserved {cap : Nat} {p : LockPool} {op : PoolOp}
    (hp : poolConserved cap p)
    (hv : (match op with
           | PoolOp.create _ => true
           | PoolOp.del none _ => true
           | PoolOp.del (some h) _ => p.checkedOut.contains h) = true) :
    poolConserved cap (poolStep p op) := by
  unfold poolConserved at hp ⊢
  match op with
  | PoolOp.create ok =>
    simp only [poolStep, OS_TLS_LockCreate]
    match hf : p.freeList with
    | [] => simpa [hf] using hp
    | h :: t =>
      cases ok with
      | false =>
        simpa [hf] using hp
      | true =>
        simp only [if_pos rfl]
        refine List.Perm.trans ?_ (by simpa [hf] using hp)
        exact List.perm_middle
  | PoolOp.del none delOk =>
    simpa [poolStep, OS_TLS_LockDel] using hp
  | PoolOp.del (some h) delOk =>
    have hm : h ∈ p.checkedOut := mem_of_containsNat hv
    simp only [poolStep, OS_TLS_LockDel]
    refine List.Perm.trans ?_ hp
    exact List.Perm.trans List.perm_middle.symm
      (List.Perm.append_left _ (List.perm_cons_erase hm).symm)

/-- A valid run from a conserved state ends in a conserved state. -/
theorem poolRun_conserved {cap : Nat} :
    ∀ (ops : List PoolOp) (p : LockPool),
      poolConserved cap p → validOps p ops = true →
      poolConserved cap (poolRun p ops)
  | [], p, hp, _ => hp
  | op :: ops, p, hp, hv => by
    simp only [validOps, Bool.and_eq_true] at hv
    exact poolRun_conserved ops (poolStep p op) (poolStep_conserved hp hv.1) hv.2

/-- The initial pool is conserved. -/
theorem initLockPool_conserved (cap : Nat) : poolConserved cap (initLockPool cap) := by
  simp [poolConserved, initLockPool]

/-- The ids handed out by `n` successive `OS_TLS_GetID` calls whose
whole run stays under capacity: consecutive ids from `next`, all with
`OS_ERR_NONE`, the counter advancing by `n`. -/
theorem runGetID_ok (cap : Nat) :
    ∀ (n next : Nat), next + n ≤ cap →
      (runGetID cap n next).1 = (List.range n).map (fun i => (next + i, OS_ERR.NONE)) ∧
      (runGetID cap n next).2 = next + n
  | 0, next, _ => by simp [runGetID]
  | n + 1, next, hle => by
    have hlt : ¬ next ≥ cap := by omega
    have ih := runGetID_ok cap n (next + 1) (by omega)
    constructor
    · simp only [runGetID, OS_TLS_GetID, if_neg hlt]
      rw [ih.1, List.range_succ_eq_map, List.map_cons, List.map_map]
      refine congrArg₂ List.cons (by simp) (List.map_congr_left fun a ha => ?_)
      simp only [Function.comp_apply, Prod.mk.injEq]
      refine ⟨by omega, by trivial⟩
    · simp only [runGetID, OS_TLS_GetID, if_neg hlt]
      rw [ih.2]
      omega

/-- Once the counter sits at capacity, every further `OS_TLS_GetID` call
reports exhaustion, returns the sentinel `cap` and leaves the counter at
`cap`. -/
theorem runGetID_exhausted (cap : Nat) :
    ∀ m : Nat,
      (runGetID cap m cap).1 = List.replicate m (cap, OS_ERR.TLS_NO_MORE_AVAIL) ∧
      (runGetID cap m cap).2 = cap
  | 0 => by simp [runGetID]
  | m + 1 => by
    have ih := runGetID_exhausted cap m
    simp [runGetID, OS_TLS_GetID, List.replicate_succ, ih.1, ih.2]

/-- Claim C2: any N ≤ capacity successive calls to the slot allocator
return exactly the ids 0, ..., N-1 in increasing order (no duplicates,
no gaps), each with OS_ERR_NONE, leaving the counter at N; once the
counter has reached capacity every further call reports
OS_ERR_TLS_NO_MORE_AVAIL, returns the sentinel equal to capacity and
leaves the counter unchanged; the sentinel is never a valid id. -/
theorem OS_TLS_GetID_sequence_spec (cap N : Nat) (hN : N ≤ cap) :
    (runGetID cap N 0).1 = (List.range N).map (fun i => (i, OS_ERR.NONE)) ∧
    (runGetID cap N 0).2 = N ∧
    (∀ M : Nat,
      (runGetID cap M cap).1 = List.replicate M (cap, OS_ERR.TLS_NO_MORE_AVAIL) ∧
      (runGetID cap M cap).2 = cap) ∧
    cap ∉ List.range cap := by
  have h0 := runGetID_ok cap N 0 (by omega)
  exact ⟨by simpa using h0.1, by simpa using h0.2, runGetID_exhausted cap, by simp⟩

/-- Witness for C2 at capacity 4. -/
theorem OS_TLS_GetID_sequence_spec_witness :
    (4 : Nat) ≤ 4 ∧
    (runGetID 4 4 0).1 = (List.range 4).map (fun i => (i, OS_ERR.NONE)) ∧
    (runGetID 4 4 0).2 = 4 ∧
    (runGetID 4 3 4).1 = List.replicate 3 (4, OS_ERR.TLS_NO_MORE_AVAIL) ∧
    (runGetID 4 3 4).2 = 4 ∧
    (4 : Nat) ∉ List.range 4 := by
  have t := OS_TLS_GetID_sequence_spec 4 4 (by decide)
  exact ⟨by decide, t.1, t.2.1, (t.2.2.1 3).1, (t.2.2.1 3).2, t.2.2.2⟩

/-- Claim C4: with argument checking enabled, any id at or above the
issued count is rejected with OS_ERR_TLS_ID_INVALID by both Get and Set,
for every task reference (explicit task or current) and every current
task pointer (scheduler started or not, TLS enabled or not); Get returns
0 and Set writes no TLS table (first component none). -/
theorem OS_TLS_invalid_id_rejected (nextAvail : Nat) (cur p_tcb : Option OS_TCB)
    (id v : Nat) (hid : id ≥ nextAvail) :
    OS_TLS_GetValue nextAvail cur p_tcb id = (0, OS_ERR.TLS_ID_INVALID) ∧
    OS_TLS_SetValue nextAvail cur p_tcb id v = (none, OS_ERR.TLS_ID_INVALID) := by
  constructor <;> simp [OS_TLS_GetValue, OS_TLS_SetValue, hid]

/-- Witness for C4: id 3 against issued count 1, on a TLS-enabled task. -/
theorem OS_TLS_invalid_id_rejected_witness :
    (3 : Nat) ≥ 1 ∧
    OS_TLS_GetValue 1 none (some clearedTcb) 3 = (0, OS_ERR.TLS_ID_INVALID) ∧
    OS_TLS_SetValue 1 none (some clearedTcb) 3 7 = (none, OS_ERR.TLS_ID_INVALID) := by
  have t := OS_TLS_invalid_id_rejected 1 none (some clearedTcb) 3 7 (by decide)
  exact ⟨by decide, t.1, t.2⟩

/-- Counterexample to claim C5 as stated: with the scheduler not started
(OSTCBCurPtr null) and task = current, an id at or above the issued
count yields OS_ERR_TLS_ID_INVALID, not OS_ERR_OS_NOT_RUNNING — the
argument check at os_tls.c lines 181-186 / 298-302 runs before the
not-running check at lines 188-196 / 305-312. -/
theorem OS_TLS_not_running_counterexample :
    (OS_TLS_GetValue 1 none none 1).2 = OS_ERR.TLS_ID_INVALID ∧
    (OS_TLS_GetValue 1 none none 1).2 ≠ OS_ERR.OS_NOT_RUNNING ∧
    (OS_TLS_SetValue 1 none none 1 7).2 = OS_ERR.TLS_ID_INVALID ∧
    (OS_TLS_SetValue 1 none none 1 7).2 ≠ OS_ERR.OS_NOT_RUNNING := by
  exact ⟨by decide, by decide, by decide, by decide⟩

/-- Claim C5 amended: for every id BELOW the issued count, Get and Set
invoked with task = current before the scheduler has started (null
OSTCBCurPtr) return OS_ERR_OS_NOT_RUNNING, Get returning 0 and Set
changing no state.  (For id at or above the issued count the argument
check fires first and the error is OS_ERR_TLS_ID_INVALID.) -/
theorem OS_TLS_not_running_valid_id (nextAvail id v : Nat) (hid : id < nextAvail) :
    OS_TLS_GetValue nextAvail none none id = (0, OS_ERR.OS_NOT_RUNNING) ∧
    OS_TLS_SetValue nextAvail none none id v = (none, OS_ERR.OS_NOT_RUNNING) := by
  have h : ¬ id ≥ nextAvail := by omega
  constructor <;> simp [OS_TLS_GetValue, OS_TLS_SetValue, resolveRef, h]

/-- Witness for amended C5: id 0 against issued count 1. -/
theorem OS_TLS_not_running_valid_id_witness :
    (0 : Nat) < 1 ∧
    OS_TLS_GetValue 1 none none 0 = (0, OS_ERR.OS_NOT_RUNNING) ∧
    OS_TLS_SetValue 1 none none 0 7 = (none, OS_ERR.OS_NOT_RUNNING) := by
  have t := OS_TLS_not_running_valid_id 1 0 7 (by decide)
  exact ⟨by decide, t.1, t.2⟩

/-- Counterexample to claim C9 as stated: id 5 is not a valid allocated
id right after initialization (issued count 1), yet OS_TLS_SetDestruct
stores OS_ERR_NONE, not OS_ERR_TLS_ID_INVALID — its body is a stub that
unconditionally reports success. -/
theorem OS_TLS_SetDestruct_counterexample :
    (5 : Nat) ≥ (OS_TLS_Init 4).2.2 ∧
    OS_TLS_SetDestruct 5 none = OS_ERR.NONE ∧
    OS_TLS_SetDestruct 5 none ≠ OS_ERR.TLS_ID_INVALID := by
  exact ⟨by decide, rfl, by decide⟩

/-- Claim C9 amended: OS_TLS_SetDestruct reports OS_ERR_NONE for every
id and every destructor, valid or not; it never reports
OS_ERR_TLS_ID_INVALID. -/
theorem OS_TLS_SetDestruct_always_none (id : Nat) (p_destruct : Option (Nat → Nat → Nat)) :
    OS_TLS_SetDestruct id p_destruct = OS_ERR.NONE ∧
    OS_TLS_SetDestruct id p_destruct ≠ OS_ERR.TLS_ID_INVALID := by
  exact ⟨rfl, by simp [OS_TLS_SetDestruct]⟩

/-- Witness for amended C9 at id 5 with no destructor. -/
theorem OS_TLS_SetDestruct_always_none_witness :
    OS_TLS_SetDestruct 5 none = OS_ERR.NONE ∧
    OS_TLS_SetDestruct 5 none ≠ OS_ERR.TLS_ID_INVALID := by
  exact OS_TLS_SetDestruct_always_none 5 none

/-- Claim C7: lock acquire and release on a null handle, or on any
handle while the kernel is not running, return immediately without
calling into the kernel mutex layer; only with a non-null handle and the
kernel running do they pend on / post the underlying mutex. -/
theorem OS_TLS_lock_guard_noop :
    (∀ running : Bool,
      OS_TLS_LockAcquire running none = MutexAction.untouched ∧
      OS_TLS_LockRelease running none = MutexAction.untouched) ∧
    (∀ h : Nat,
      OS_TLS_LockAcquire false (some h) = MutexAction.untouched ∧
      OS_TLS_LockRelease false (some h) = MutexAction.untouched) ∧
    (∀ h : Nat,
      OS_TLS_LockAcquire true (some h) = MutexAction.pend h ∧
      OS_TLS_LockRelease true (some h) = MutexAction.post h) := by
  refine ⟨fun running => ?_, fun h => ⟨rfl, rfl⟩, fun h => ⟨rfl, rfl⟩⟩
  cases running <;> exact ⟨rfl, rfl⟩

/-- Claim C8: the TLS address resolver returns base + symbol offset,
the base being the static main-thread segment while the scheduler is not
running and the segment pointer stored at the reserved library slot of
the current task while it is. -/
theorem iar_access_resolution (segBegin : Nat) (cur : OS_TCB) (libID off : Nat) :
    iar_dlib_perthread_access false segBegin cur libID off = segBegin + off ∧
    iar_dlib_perthread_access true segBegin cur libID off = cur.TLS_Tbl libID + off := by
  exact ⟨rfl, rfl⟩

/-- Claim C10: OS_TLS_Init allocates the reserved library slot itself:
immediately after initialization OS_TLS_LibID = 0, the error is
OS_ERR_NONE and the issued count is 1; the first client allocation after
initialization returns id 1 (when capacity allows a second slot); and
exactly capacity - 1 further allocations succeed — they return ids
1, ..., cap-1, after which the counter sits at capacity and the next
call reports exhaustion. -/
theorem OS_TLS_Init_reserves_slot_zero (cap : Nat) (hcap : 0 < cap) :
    OS_TLS_Init cap = (0, OS_ERR.NONE, 1) ∧
    (2 ≤ cap → OS_TLS_GetID cap 1 = (1, OS_ERR.NONE, 2)) ∧
    (runGetID cap (cap - 1) 1).1 =
      (List.range (cap - 1)).map (fun i => (1 + i, OS_ERR.NONE)) ∧
    (runGetID cap (cap - 1) 1).2 = cap ∧
    (runGetID cap 1 cap).1 = [(cap, OS_ERR.TLS_NO_MORE_AVAIL)] := by
  have h1 := runGetID_ok cap (cap - 1) 1 (by omega)
  refine ⟨?_, ?_, h1.1, by rw [h1.2]; omega, ?_⟩
  · simp [OS_TLS_Init, OS_TLS_GetID, Nat.not_le_of_lt hcap]
  · intro h2
    simp [OS_TLS_GetID]
    omega
  · simpa using (runGetID_exhausted cap 1).1

/-- Witness for C10 at capacity 4. -/
theorem OS_TLS_Init_reserves_slot_zero_witness :
    (0 : Nat) < 4 ∧
    OS_TLS_Init 4 = (0, OS_ERR.NONE, 1) ∧
    OS_TLS_GetID 4 1 = (1, OS_ERR.NONE, 2) ∧
    (runGetID 4 3 1).1 = (List.range 3).map (fun i => (1 + i, OS_ERR.NONE)) ∧
    (runGetID 4 3 1).2 = 4 ∧
    (runGetID 4 1 4).1 = [(4, OS_ERR.TLS_NO_MORE_AVAIL)] := by
  have t := OS_TLS_Init_reserves_slot_zero 4 (by decide)
  exact ⟨by decide, t.1, t.2.1 (by decide), t.2.2.1, t.2.2.2.1, t.2.2.2.2⟩

/-- Claim C3: lock create is error-atomic.  With an empty free list it
returns null and leaves the pool untouched; when the kernel mutex
creation fails it pushes the popped entry back on the front of the free
list, so the pool equals its pre-call state, and returns null; a
non-null handle is returned only when an entry was popped off the free
list and its mutex was created successfully. -/
theorem OS_TLS_LockCreate_error_atomicity (p : LockPool) (ok : Bool) :
    (p.freeList = [] → OS_TLS_LockCreate ok p = (none, p)) ∧
    (ok = false → OS_TLS_LockCreate ok p = (none, p)) ∧
    (∀ h q, OS_TLS_LockCreate ok p = (some h, q) →
      ok = true ∧ p.freeList = h :: q.freeList ∧ q.checkedOut = h :: p.checkedOut) := by
  obtain ⟨f, c⟩ := p
  refine ⟨fun hf => ?_, fun hok => ?_, fun h q hcq => ?_⟩
  · subst hf
    rfl
  · subst hok
    cases f with
    | nil => rfl
    | cons x t => rfl
  · cases f with
    | nil => exact absurd hcq (by simp [OS_TLS_LockCreate])
    | cons x t =>
      cases ok with
      | false => exact absurd hcq (by simp [OS_TLS_LockCreate])
      | true =>
        simp only [OS_TLS_LockCreate, if_pos rfl, Prod.mk.injEq, Option.some.injEq] at hcq
        obtain ⟨rfl, rfl⟩ := hcq
        exact ⟨rfl, rfl, rfl⟩

/-- Witness for C3: a mutex-creation failure on a two-entry pool leaves
the pool exactly as it was and returns null. -/
theorem OS_TLS_LockCreate_error_atomicity_witness :
    OS_TLS_LockCreate false (initLockPool 2) = (none, initLockPool 2) := by
  exact (OS_TLS_LockCreate_error_atomicity (initLockPool 2) false).2.1 rfl

/-- Claim C1: starting from the pool state established by OS_TLS_Init,
after any valid sequence of creates and deletes (deletes only of null or
currently outstanding handles), the free list plus the checked-out
entries is a permutation of all cap pool entries — every entry is free
or checked out exactly once — so free count + checked-out count = cap;
moreover deleting any outstanding handle puts its entry back on the free
list whatever OSMutexDel reports, and a create issued right after such a
delete (with OSMutexCreate succeeding) returns a non-null handle. -/
theorem OS_TLS_lockPool_conservation (cap : Nat) (ops : List PoolOp)
    (hv : validOps (initLockPool cap) ops = true) :
    poolConserved cap (poolRun (initLockPool cap) ops) ∧
    (poolRun (initLockPool cap) ops).freeList.length +
      (poolRun (initLockPool cap) ops).checkedOut.length = cap ∧
    (∀ h, h ∈ (poolRun (initLockPool cap) ops).checkedOut → ∀ delOk : Bool,
      h ∈ (OS_TLS_LockDel delOk (some h) (poolRun (initLockPool cap) ops)).freeList ∧
      (OS_TLS_LockCreate true
        (OS_TLS_LockDel delOk (some h) (poolRun (initLockPool cap) ops))).1 ≠ none) := by
  have hc := poolRun_conserved ops (initLockPool cap) (initLockPool_conserved cap) hv
  refine ⟨hc, by simpa using hc.length_eq, fun h hm delOk => ?_⟩
  constructor
  · simp [OS_TLS_LockDel]
  · simp [OS_TLS_LockDel, OS_TLS_LockCreate]

/-- Witness for C1: capacity 2, one successful create; entry 0 is
checked out, the invariant holds, and delete of 0 (with OSMutexDel
failing) refills the free list so the next create succeeds. -/
theorem OS_TLS_lockPool_conservation_witness :
    validOps (initLockPool 2) [PoolOp.create true] = true ∧
    poolConserved 2 (poolRun (initLockPool 2) [PoolOp.create true]) ∧
    (poolRun (initLockPool 2) [PoolOp.create true]).freeList.length +
      (poolRun (initLockPool 2) [PoolOp.create true]).checkedOut.length = 2 ∧
    0 ∈ (OS_TLS_LockDel false (some 0)
      (poolRun (initLockPool 2) [PoolOp.create true])).freeList ∧
    (OS_TLS_LockCreate true (OS_TLS_LockDel false (some 0)
      (poolRun (initLockPool 2) [PoolOp.create true]))).1 ≠ none := by
  have t := OS_TLS_lockPool_conservation 2 [PoolOp.create true] (by decide)
  have hm : 0 ∈ (poolRun (initLockPool 2) [PoolOp.create true]).checkedOut := by decide
  exact ⟨by decide, t.1, t.2.1, (t.2.2 0 hm false).1, (t.2.2 0 hm false).2⟩

/-- Counterexample to claim C6 as stated: the task-create hook stores
the allocated segment pointer in the fresh task's table at the reserved
slot OS_TLS_LibID, so Get on a freshly created TLS-enabled task at that
valid slot returns the segment pointer, not 0.  Concretely, with
OS_TLS_LibID = 0 (its post-init value), issued count 1 and the external
allocator returning 5, Get at the valid id 0 returns (5, OS_ERR_NONE). -/
theorem OS_TLS_fresh_get_counterexample :
    (freshTcb 0 5).OptNoTls = false ∧
    (0 : Nat) < 1 ∧
    OS_TLS_GetValue 1 none (some (freshTcb 0 5)) 0 = (5, OS_ERR.NONE) ∧
    (OS_TLS_GetValue 1 none (some (freshTcb 0 5)) 0).1 ≠ 0 := by
  exact ⟨by decide, by decide, by decide, by decide⟩

/-- Claim C6 amended: on any TLS-enabled task (referenced explicitly or
as current) and any valid slot id, Set(task, id, v) succeeds and a Get
of the same id on the written task returns (v, OS_ERR_NONE); Get on a
freshly created task before any Set returns (0, OS_ERR_NONE) for every
valid id OTHER than the reserved library slot, while at the reserved
slot it returns the segment pointer the creation hook stored there. -/
theorem OS_TLS_set_get_roundtrip (nextAvail : Nat) (cur p_ref : Option OS_TCB)
    (tcb : OS_TCB) (id v : Nat) (hres : resolveRef cur p_ref = some tcb)
    (hen : tcb.OptNoTls = false) (hid : id < nextAvail) :
    OS_TLS_SetValue nextAvail cur p_ref id v = (some (setTbl tcb id v), OS_ERR.NONE) ∧
    OS_TLS_GetValue nextAvail cur (some (setTbl tcb id v)) id = (v, OS_ERR.NONE) ∧
    (∀ libID segPtr, id ≠ libID →
      OS_TLS_GetValue nextAvail cur (some (freshTcb libID segPtr)) id =
        (0, OS_ERR.NONE)) ∧
    (∀ libID segPtr, libID < nextAvail →
      OS_TLS_GetValue nextAvail cur (some (freshTcb libID segPtr)) libID =
        (segPtr, OS_ERR.NONE)) := by
  have hnot : ¬ id ≥ nextAvail := by omega
  refine ⟨?_, ?_, fun libID segPtr hne => ?_, fun libID segPtr hlib => ?_⟩
  · simp [OS_TLS_SetValue, hnot, hres, hen]
  · simp [OS_TLS_GetValue, hnot, resolveRef, setTbl, hen]
  · simp [OS_TLS_GetValue, hnot, resolveRef, freshTcb, OS_TLS_TaskCreate, clearedTcb, hne]
  · have hnotl : ¬ libID ≥ nextAvail := by omega
    simp [OS_TLS_GetValue, hnotl, resolveRef, freshTcb, OS_TLS_TaskCreate, clearedTcb]

/-- Witness for amended C6: set slot 0 to 7 on a cleared TLS-enabled
task with issued count 1 and read it back; read a fresh task (reserved
slot 0, segment pointer 5) at the reserved slot. -/
theorem OS_TLS_set_get_roundtrip_witness :
    resolveRef none (some clearedTcb) = some clearedTcb ∧
    clearedTcb.OptNoTls = false ∧
    (0 : Nat) < 1 ∧
    OS_TLS_SetValue 1 none (some clearedTcb) 0 7 =
      (some (setTbl clearedTcb 0 7), OS_ERR.NONE) ∧
    OS_TLS_GetValue 1 none (some (setTbl clearedTcb 0 7)) 0 = (7, OS_ERR.NONE) ∧
    OS_TLS_GetValue 1 none (some (freshTcb 0 5)) 0 = (5, OS_ERR.NONE) := by
  have t := OS_TLS_set_get_roundtrip 1 none (some clearedTcb) clearedTcb 0 7
    rfl rfl (by decide)
  exact ⟨rfl, rfl, by decide, t.1, t.2.1, t.2.2.2 0 5 (by decide)⟩

end OsTls
